import Mathlib

/-
Verification of the DASH backend (src/backend) against its specification.

The development shallowly embeds the two request handlers of the repository
(the FastAPI endpoint query_agent of src/backend/api.py and lambda_handler
of src/backend/lambda_function.py), the DataQuery schema and structured
output parsing of src/backend/main.py, the environment/credential loading
at module import, and the conversation memory threaded through the agent
executor.  The opaque hosted agent (the Agent Invocation Facade of the
spec) is an injected function from (query, history) to raw text or an
exception, exceptions being modelled with Except.
-/

set_option autoImplicit false

namespace DASH

/-! JSON values, decoding and serialization.

Python handles the JSON in this repository: json.loads on the lambda event
body and json.dumps on the lambda response, and the JSON-object layer of the
structured output parser.  Numbers are kept as integers (their integer part):
no behaviour claimed of this repository depends on fractional values. -/

inductive Json where
  | null : Json
  | bool : Bool → Json
  | num : Int → Json
  | str : String → Json
  | arr : List Json → Json
  | obj : List (String × Json) → Json
deriving Inhabited

def isWsChar (c : Char) : Bool :=
  c = ' ' || c = '\n' || c = '\t' || c = '\r'

def skipWs : List Char → List Char
  | [] => []
  | c :: cs => if isWsChar c then skipWs cs else c :: cs

def isDigitChar (c : Char) : Bool :=
  48 ≤ c.toNat && c.toNat ≤ 57

def hexVal (c : Char) : Option Nat :=
  if 48 ≤ c.toNat && c.toNat ≤ 57 then some (c.toNat - 48)
  else if 97 ≤ c.toNat && c.toNat ≤ 102 then some (c.toNat - 87)
  else if 65 ≤ c.toNat && c.toNat ≤ 70 then some (c.toNat - 55)
  else none

def escMap (c : Char) : Option Char :=
  if c = '"' then some '"'
  else if c = '\\' then some '\\'
  else if c = '/' then some '/'
  else if c = 'b' then some (Char.ofNat 8)
  else if c = 'f' then some (Char.ofNat 12)
  else if c = 'n' then some '\n'
  else if c = 'r' then some '\r'
  else if c = 't' then some '\t'
  else none

/-- Decode the body of a JSON string literal, the opening quote already
consumed; returns the decoded string and the input after the closing
quote. -/
def pString : Nat → List Char → List Char → Option (String × List Char)
  | 0, _, _ => none
  | _ + 1, _, [] => none
  | f + 1, acc, c :: cs =>
    if c = '"' then some (String.mk acc.reverse, cs)
    else if c = '\\' then
      match cs with
      | [] => none
      | e :: cs2 =>
        if e = 'u' then
          match cs2 with
          | a :: b :: c3 :: d :: cs3 =>
            match hexVal a, hexVal b, hexVal c3, hexVal d with
            | some ha, some hb, some hc, some hd =>
              pString f (Char.ofNat (((ha * 16 + hb) * 16 + hc) * 16 + hd) :: acc) cs3
            | _, _, _, _ => none
          | _ => none
        else
          match escMap e with
          | some ch => pString f (ch :: acc) cs2
          | none => none
    else pString f (c :: acc) cs

/-- Split input into its leading run of decimal digits and the rest. -/
def digitsLex : List Char → List Char × List Char
  | [] => ([], [])
  | c :: cs =>
    if isDigitChar c then
      let (ds, r) := digitsLex cs
      (c :: ds, r)
    else ([], c :: cs)

def digitsToNat (ds : List Char) : Nat :=
  ds.foldl (fun a c => a * 10 + (c.toNat - 48)) 0

/-- Decode a JSON number; the stored value is the integer part. -/
def pNum (cs : List Char) : Option (Json × List Char) :=
  let (neg, cs1) :=
    match cs with
    | c :: r => if c = '-' then (true, r) else (false, cs)
    | [] => (false, ([] : List Char))
  match digitsLex cs1 with
  | ([], _) => none
  | (ds, rest) =>
    let rest2 :=
      match rest with
      | c :: r => if c = '.' then (digitsLex r).2 else rest
      | [] => rest
    let rest3 :=
      match rest2 with
      | c :: r =>
        if c = 'e' || c = 'E' then
          match r with
          | c2 :: r2 =>
            if c2 = '+' || c2 = '-' then (digitsLex r2).2 else (digitsLex r).2
          | [] => rest2
        else rest2
      | [] => rest2
    let v : Int := if neg then -(digitsToNat ds : Int) else (digitsToNat ds : Int)
    some (Json.num v, rest3)

def expectLit : List Char → List Char → Option (List Char)
  | [], cs => some cs
  | _ :: _, [] => none
  | e :: es, c :: cs => if c = e then expectLit es cs else none

mutual

/-- Decode one JSON value from the input, returning the value and the
remaining input. -/
def pVal : Nat → List Char → Option (Json × List Char)
  | 0, _ => none
  | f + 1, cs =>
    match skipWs cs with
    | [] => none
    | c :: cs1 =>
      if c = '\x7b' then
        match skipWs cs1 with
        | '\x7d' :: r => some (Json.obj [], r)
        | cs2 => pObj f cs2 []
      else if c = '[' then
        match skipWs cs1 with
        | ']' :: r => some (Json.arr [], r)
        | cs2 => pArr f cs2 []
      else if c = '"' then
        match pString f [] cs1 with
        | some (s, r) => some (Json.str s, r)
        | none => none
      else if c = 't' then
        match expectLit ['r', 'u', 'e'] cs1 with
        | some r => some (Json.bool true, r)
        | none => none
      else if c = 'f' then
        match expectLit ['a', 'l', 's', 'e'] cs1 with
        | some r => some (Json.bool false, r)
        | none => none
      else if c = 'n' then
        match expectLit ['u', 'l', 'l'] cs1 with
        | some r => some (Json.null, r)
        | none => none
      else pNum (c :: cs1)

/-- Decode the elements of a JSON array, the opening bracket and any
already-decoded elements behind us. -/
def pArr : Nat → List Char → List Json → Option (Json × List Char)
  | 0, _, _ => none
  | f + 1, cs, acc =>
    match pVal f cs with
    | none => none
    | some (v, rest) =>
      match skipWs rest with
      | ',' :: r2 => pArr f r2 (v :: acc)
      | ']' :: r2 => some (Json.arr (v :: acc).reverse, r2)
      | _ => none

/-- Decode the members of a JSON object, the opening brace and any
already-decoded members behind us. -/
def pObj : Nat → List Char → List (String × Json) → Option (Json × List Char)
  | 0, _, _ => none
  | f + 1, cs, acc =>
    match skipWs cs with
    | '"' :: r1 =>
      match pString f [] r1 with
      | none => none
      | some (k, r2) =>
        match skipWs r2 with
        | ':' :: r3 =>
          match pVal f r3 with
          | none => none
          | some (v, r4) =>
            match skipWs r4 with
            | ',' :: r5 => pObj f r5 ((k, v) :: acc)
            | '\x7d' :: r5 => some (Json.obj ((k, v) :: acc).reverse, r5)
            | _ => none
        | _ => none
    | _ => none

end

/-- Decode a complete JSON document, as Python json.loads: the whole input
must be consumed up to trailing whitespace. -/
def jsonDecode (s : String) : Option Json :=
  match pVal (2 * s.length + 2) s.data with
  | some (j, rest) => if (skipWs rest).isEmpty then some j else none
  | none => none

def hexDigitChar (n : Nat) : Char :=
  if n < 10 then Char.ofNat (48 + n) else Char.ofNat (87 + n)

def escapeChar (c : Char) : String :=
  if c = '"' then "\\\""
  else if c = '\\' then "\\\\"
  else if c = '\n' then "\\n"
  else if c = '\t' then "\\t"
  else if c = '\r' then "\\r"
  else if c.toNat < 32 then
    String.mk ['\\', 'u', '0', '0', hexDigitChar (c.toNat / 16), hexDigitChar (c.toNat % 16)]
  else String.mk [c]

def escapeStr (s : String) : String :=
  "\"" ++ String.join (s.data.map escapeChar) ++ "\""

mutual

/-- Serialize a JSON value the way Python json.dumps does with its default
separators (a comma-space between items, a colon-space after keys). -/
def Json.render : Json → String
  | Json.null => "null"
  | Json.bool true => "true"
  | Json.bool false => "false"
  | Json.num i => toString i
  | Json.str s => escapeStr s
  | Json.arr l => "[" ++ Json.renderElems l ++ "]"
  | Json.obj l => "\x7b" ++ Json.renderMembers l ++ "\x7d"

def Json.renderElems : List Json → String
  | [] => ""
  | [j] => Json.render j
  | j :: js => Json.render j ++ ", " ++ Json.renderElems js

def Json.renderMembers : List (String × Json) → String
  | [] => ""
  | [(k, v)] => escapeStr k ++ ": " ++ Json.render v
  | (k, v) :: kvs => escapeStr k ++ ": " ++ Json.render v ++ ", " ++ Json.renderMembers kvs

end

/-! The DataQuery schema and structured output parsing
(src/backend/main.py, lines 23-33). -/

/-- The pydantic model DataQuery of src/backend/main.py: four required
fields, two strings and two lists of strings. -/
structure DataQuery where
  summary : String
  relevancyExplained : String
  sources : List String
  tools_used : List String
deriving DecidableEq, Inhabited

/-- The dict() serialization of a DataQuery, with the model's field order. -/
def DataQuery.toJson (d : DataQuery) : Json :=
  Json.obj
    [("summary", Json.str d.summary),
     ("relevancyExplained", Json.str d.relevancyExplained),
     ("sources", Json.arr (d.sources.map Json.str)),
     ("tools_used", Json.arr (d.tools_used.map Json.str))]

def asStr : Json → Option String
  | Json.str s => some s
  | _ => none

def asStrList : List Json → Option (List String)
  | [] => some []
  | j :: js =>
    match asStr j with
    | none => none
    | some s =>
      match asStrList js with
      | none => none
      | some ss => some (s :: ss)

def asStrArr : Json → Option (List String)
  | Json.arr l => asStrList l
  | _ => none

/-- Validate a decoded JSON value against the DataQuery schema: all four
fields must be present and correctly typed, otherwise validation fails with
the reason. -/
def validateDataQuery : Json → Except String DataQuery
  | Json.obj kvs =>
    match (kvs.lookup "summary").bind asStr with
    | none => Except.error "Failed to parse DataQuery: field summary missing or not a string"
    | some s1 =>
      match (kvs.lookup "relevancyExplained").bind asStr with
      | none => Except.error "Failed to parse DataQuery: field relevancyExplained missing or not a string"
      | some s2 =>
        match (kvs.lookup "sources").bind asStrArr with
        | none => Except.error "Failed to parse DataQuery: field sources missing or not a list of strings"
        | some l1 =>
          match (kvs.lookup "tools_used").bind asStrArr with
          | none => Except.error "Failed to parse DataQuery: field tools_used missing or not a list of strings"
          | some l2 => Except.ok ⟨s1, s2, l1, l2⟩
  | _ => Except.error "Failed to parse DataQuery: output is not a JSON object"

/-- Modelled from the spec: the structured output parser built in
src/backend/main.py line 33 from the DataQuery model is an external library
component (PydanticOutputParser); following section 4.2 of the spec it
attempts a strict parse of the text as the declared schema and on any
failure (malformed JSON, missing or mistyped field) surfaces the failure
reason, the caller retaining the original text. -/
def parse (text : String) : Except String DataQuery :=
  match jsonDecode text with
  | none => Except.error "Invalid json output"
  | some j => validateDataQuery j

/-! Process-wide configuration (src/backend/main.py, lines 13-18).

Each credential is read with a mandatory environment lookup when the
module loads; a missing key aborts that load (Python KeyError), before
either handler can run. -/

structure Config where
  openai_api_key : String
  langsmith_api_key : String
  langsmith_endpoint : String
  langsmith_project : String
  langsmith_tracing : String
  serpapi_api_key : String

def requiredEnvKeys : List String :=
  ["OPENAI_API_KEY", "LANGSMITH_API_KEY", "LANGSMITH_ENDPOINT",
   "LANGSMITH_PROJECT", "LANGSMITH_TRACING", "SERPAPI_API_KEY"]

/-- The six mandatory environment reads performed when src/backend/main.py
is imported, in source order; the first missing key raises KeyError. -/
def loadConfig (env : String → Option String) : Except String Config :=
  match env "OPENAI_API_KEY" with
  | none => Except.error "KeyError: OPENAI_API_KEY"
  | some k1 =>
    match env "LANGSMITH_API_KEY" with
    | none => Except.error "KeyError: LANGSMITH_API_KEY"
    | some k2 =>
      match env "LANGSMITH_ENDPOINT" with
      | none => Except.error "KeyError: LANGSMITH_ENDPOINT"
      | some k3 =>
        match env "LANGSMITH_PROJECT" with
        | none => Except.error "KeyError: LANGSMITH_PROJECT"
        | some k4 =>
          match env "LANGSMITH_TRACING" with
          | none => Except.error "KeyError: LANGSMITH_TRACING"
          | some k5 =>
            match env "SERPAPI_API_KEY" with
            | none => Except.error "KeyError: SERPAPI_API_KEY"
            | some k6 => Except.ok ⟨k1, k2, k3, k4, k5, k6⟩

/-! Conversation memory and the Agent Invocation Facade.

src/backend/main.py line 21 creates a module-level ConversationBufferMemory
shared by the agent executor (line 78); the spec's ConversationHistory is an
ordered sequence of turns threaded into the prompt, accumulating across
requests within one process. -/

/-- The conversation history: the ordered (input, output) turns the buffer
memory has recorded. -/
abbrev Memory := List (Json × String)

/-- The memory of a fresh process: the ConversationBufferMemory of
src/backend/main.py line 21 starts empty. -/
def initialMemory : Memory := []

/-- Modelled from the spec: the opaque hosted agent core behind the Agent
Invocation Facade (section 4.4) — a function from the current query and the
threaded conversation history to raw text, or to an exception message
(Except.error).  It is a parameter of every theorem, never a fixed stub. -/
abbrev AgentCore := Json → Memory → Except String String

/-- agent_executor.invoke of src/backend/main.py lines 78-84: run the
opaque agent core on the query and the current history; on success the
buffer memory records the (input, output) turn, on an exception the memory
is untouched and the exception propagates. -/
def agent_executor_invoke (llm : AgentCore) (q : Json) (m : Memory) :
    Except String (String × Memory) :=
  match llm q m with
  | Except.error e => Except.error e
  | Except.ok out => Except.ok (out, m ++ [(q, out)])

/-! The HTTP endpoint (src/backend/api.py, lines 18-29). -/

/-- Python truthiness on a JSON value, as used by the guard
if not user_query of src/backend/api.py line 22. -/
def pyFalsy : Json → Bool
  | Json.null => true
  | Json.bool b => !b
  | Json.num i => i = 0
  | Json.str s => s.isEmpty
  | Json.arr l => l.isEmpty
  | Json.obj l => l.isEmpty

/-- Truthiness of dict.get's result: a missing key yields None, which is
falsy. -/
def pyFalsyOpt : Option Json → Bool
  | none => true
  | some j => pyFalsy j

/-- What the HTTP handler hands back to its framework: either a response
with a status code and a JSON body, or an exception that escaped the
handler's own code. -/
inductive ApiOutcome where
  | response (status : Nat) (body : Json)
  | exn (msg : String)

/-- The query_agent endpoint of src/backend/api.py lines 19-29.  The
request body is already decoded to a JSON object.  The try block of the
source covers only parser.parse and the dict() serialization; the
agent_executor.invoke call on line 24 sits outside it, so an exception from
the facade escapes the handler (ApiOutcome.exn). -/
def query_agent (llm : AgentCore) (data : List (String × Json)) (m : Memory) :
    ApiOutcome × Memory :=
  let user_query := data.lookup "query"
  if pyFalsyOpt user_query then
    (ApiOutcome.response 400 (Json.obj [("error", Json.str "No query provided")]), m)
  else
    match agent_executor_invoke llm (user_query.getD Json.null) m with
    | Except.error e => (ApiOutcome.exn e, m)
    | Except.ok (output, m') =>
      match parse output with
      | Except.ok d => (ApiOutcome.response 200 d.toJson, m')
      | Except.error e =>
        (ApiOutcome.response 500
          (Json.obj [("error", Json.str e), ("raw", Json.str output)]), m')

/-! The serverless handler (src/backend/lambda_function.py). -/

structure LambdaResponse where
  statusCode : Nat
  body : String
  headers : List (String × String)
deriving DecidableEq

/-- Body normalization of src/backend/lambda_function.py lines 8-19: a
string body is json.loads-decoded, falling back to an empty dict when it is
not valid JSON; a dict body is kept; anything else becomes an empty dict. -/
def parseBody (event : List (String × Json)) : Json :=
  match event.lookup "body" with
  | some (Json.str s) =>
    match jsonDecode s with
    | some j => j
    | none => Json.obj []
  | some (Json.obj kvs) => Json.obj kvs
  | _ => Json.obj []

/-- Line 23 of src/backend/lambda_function.py: body.get('query', '') — the
query defaults to the empty string.  When the normalized body is not a dict
(a string body holding valid non-object JSON), the .get attribute access
raises. -/
def extractQuery (event : List (String × Json)) : Except String Json :=
  match parseBody event with
  | Json.obj kvs => Except.ok ((kvs.lookup "query").getD (Json.str ""))
  | _ => Except.error "AttributeError: object has no attribute get"

/-- The try block of lambda_handler (lines 5-33): extract the query, invoke
the agent executor, parse the output.  The memory already mutated by a
completed invoke stays mutated even when parsing then raises. -/
def lambdaTry (llm : AgentCore) (event : List (String × Json)) (m : Memory) :
    Except String Json × Memory :=
  match extractQuery event with
  | Except.error e => (Except.error e, m)
  | Except.ok q =>
    match agent_executor_invoke llm q m with
    | Except.error e => (Except.error e, m)
    | Except.ok (out, m') =>
      match parse out with
      | Except.ok d => (Except.ok d.toJson, m')
      | Except.error e => (Except.error e, m')

/-- lambda_handler of src/backend/lambda_function.py lines 4-44: any
exception raised in the try block is converted into a 500 response whose
body carries the exception text and a generic message; a successful run
yields a 200 response carrying the serialized DataQuery. -/
def lambda_handler (llm : AgentCore) (event : List (String × Json)) (m : Memory) :
    LambdaResponse × Memory :=
  match lambdaTry llm event m with
  | (Except.ok j, m') =>
    (⟨200, Json.render j, [("Content-Type", "application/json")]⟩, m')
  | (Except.error e, m') =>
    (⟨500,
      Json.render (Json.obj
        [("error", Json.str e),
         ("message", Json.str "An error occurred while processing your request.")]),
      [("Content-Type", "application/json")]⟩, m')

/-- Serving a request requires the module import of src/backend/main.py to
have succeeded: a configuration failure precedes every request. -/
def serveLambda (env : String → Option String) (llm : AgentCore)
    (event : List (String × Json)) (m : Memory) :
    Except String (LambdaResponse × Memory) :=
  match loadConfig env with
  | Except.error e => Except.error e
  | Except.ok _ => Except.ok (lambda_handler llm event m)

/-! Concrete fixtures used by witnesses and counterexamples. -/

/-- A raw agent output that is valid JSON of the DataQuery shape. -/
def validOut : String :=
  "\x7b\"summary\": \"s\", \"relevancyExplained\": \"r\", \"sources\": [\"u\"], \"tools_used\": [\"t\"]\x7d"

def dq0 : DataQuery := ⟨"s", "r", ["u"], ["t"]⟩

/-- An agent core that always answers with schema-valid text. -/
def llmOk : AgentCore := fun _ _ => Except.ok validOut

/-- An agent core that always answers with prose the parser rejects. -/
def llmProse : AgentCore := fun _ _ => Except.ok "plain prose"

/-- An agent core that always raises. -/
def llmBoom : AgentCore := fun _ _ => Except.error "boom"

/-- An agent core whose answer depends on whether the threaded history is
empty: schema-valid text on an empty history, prose otherwise. -/
def llmProbe : AgentCore := fun _ m =>
  if m.isEmpty then Except.ok validOut else Except.ok "plain prose"

/-- A lambda event whose body is a dict with an empty query. -/
def eventEmptyQ : List (String × Json) :=
  [("body", Json.obj [("query", Json.str "")])]

/-- A lambda event whose body is a dict with a non-empty query. -/
def eventQ : List (String × Json) :=
  [("body", Json.obj [("query", Json.str "q")])]

/-- An HTTP request body with a non-empty query. -/
def dataQ : List (String × Json) := [("query", Json.str "q")]

/-! Generic helper definitions and lemmas shared across the claims. -/

/-- Boolean test that pat occurs at the start of l. -/
def listPrefixEq : List Char → List Char → Bool
  | [], _ => true
  | _ :: _, [] => false
  | a :: as, b :: bs => a = b && listPrefixEq as bs

/-- Boolean test that pat occurs somewhere inside l. -/
def strContainsAux (pat : List Char) : List Char → Bool
  | [] => listPrefixEq pat []
  | c :: cs => listPrefixEq pat (c :: cs) || strContainsAux pat cs

/-- Boolean test that pat occurs as a contiguous substring of big. -/
def strContains (big pat : String) : Bool :=
  strContainsAux pat.data big.data

/-- The condition of C9 on the raw body value of a lambda event: a string
that does not decode as JSON, or any value that is neither a string nor a
dict (including an absent body). -/
def bodyDefaulted : Option Json → Bool
  | some (Json.str s) => (jsonDecode s).isNone
  | some (Json.obj _) => false
  | _ => true

theorem asStr_eq_some {j : Json} {s : String} (h : asStr j = some s) :
    j = Json.str s := by
  cases j <;> simp [asStr] at h
  rw [h]

theorem bind_asStr_eq_some {o : Option Json} {s : String}
    (h : o.bind asStr = some s) : o = some (Json.str s) := by
  cases o with
  | none => simp at h
  | some j => rw [asStr_eq_some (show asStr j = some s from h)]

theorem asStrList_eq_some {l0 : List Json} {ss : List String}
    (h : asStrList l0 = some ss) : l0 = ss.map Json.str := by
  induction l0 generalizing ss with
  | nil =>
    simp [asStrList] at h
    simp [h.symm]
  | cons j js ih =>
    simp only [asStrList] at h
    cases hj : asStr j with
    | none => rw [hj] at h; simp at h
    | some s =>
      rw [hj] at h
      cases hjs : asStrList js with
      | none => rw [hjs] at h; simp at h
      | some ss2 =>
        rw [hjs] at h
        simp only [Option.some.injEq] at h
        rw [asStr_eq_some hj, ih hjs, h.symm]
        simp

theorem asStrArr_eq_some {j : Json} {ss : List String}
    (h : asStrArr j = some ss) : j = Json.arr (ss.map Json.str) := by
  cases j <;> simp [asStrArr] at h
  rw [asStrList_eq_some h]

theorem bind_asStrArr_eq_some {o : Option Json} {ss : List String}
    (h : o.bind asStrArr = some ss) : o = some (Json.arr (ss.map Json.str)) := by
  cases o with
  | none => simp at h
  | some j => rw [asStrArr_eq_some (show asStrArr j = some ss from h)]

theorem validateDataQuery_ok {j : Json} {d : DataQuery}
    (h : validateDataQuery j = Except.ok d) :
    ∃ kvs, j = Json.obj kvs ∧
      kvs.lookup "summary" = some (Json.str d.summary) ∧
      kvs.lookup "relevancyExplained" = some (Json.str d.relevancyExplained) ∧
      kvs.lookup "sources" = some (Json.arr (d.sources.map Json.str)) ∧
      kvs.lookup "tools_used" = some (Json.arr (d.tools_used.map Json.str)) := by
  cases j with
  | obj kvs =>
    refine ⟨kvs, rfl, ?_⟩
    simp only [validateDataQuery] at h
    cases h1 : (kvs.lookup "summary").bind asStr with
    | none => rw [h1] at h; simp at h
    | some s1 =>
      rw [h1] at h
      cases h2 : (kvs.lookup "relevancyExplained").bind asStr with
      | none => rw [h2] at h; simp at h
      | some s2 =>
        rw [h2] at h
        cases h3 : (kvs.lookup "sources").bind asStrArr with
        | none => rw [h3] at h; simp at h
        | some l1 =>
          rw [h3] at h
          cases h4 : (kvs.lookup "tools_used").bind asStrArr with
          | none => rw [h4] at h; simp at h
          | some l2 =>
            rw [h4] at h
            simp only [Except.ok.injEq] at h
            subst h
            exact ⟨bind_asStr_eq_some h1, bind_asStr_eq_some h2,
              bind_asStrArr_eq_some h3, bind_asStrArr_eq_some h4⟩
  | null => simp [validateDataQuery] at h
  | bool b => simp [validateDataQuery] at h
  | num i => simp [validateDataQuery] at h
  | str s => simp [validateDataQuery] at h
  | arr l => simp [validateDataQuery] at h

/-- The response of lambda_handler is always one of its two literal shapes:
a 200 carrying a rendered JSON value, or a 500 carrying the rendered error
object. -/
theorem lambda_handler_shape (llm : AgentCore) (event : List (String × Json))
    (m : Memory) :
    (∃ j m', lambda_handler llm event m =
      (⟨200, Json.render j, [("Content-Type", "application/json")]⟩, m')) ∨
    (∃ e m', lambda_handler llm event m =
      (⟨500, Json.render (Json.obj
          [("error", Json.str e),
           ("message", Json.str "An error occurred while processing your request.")]),
        [("Content-Type", "application/json")]⟩, m')) := by
  unfold lambda_handler
  rcases htry : lambdaTry llm event m with ⟨r, m'⟩
  cases r with
  | ok j => exact Or.inl ⟨j, m', rfl⟩
  | error e => exact Or.inr ⟨e, m', rfl⟩

/-- lambda_handler reads the event only through extractQuery. -/
theorem lambda_handler_ext {e1 e2 : List (String × Json)}
    (h : extractQuery e1 = extractQuery e2) (llm : AgentCore) (m : Memory) :
    lambda_handler llm e1 m = lambda_handler llm e2 m := by
  unfold lambda_handler lambdaTry
  rw [h]

/-! The claims. -/

/-- C1, counterexample: the claim says that BOTH handlers answer a
missing-or-empty query with a bad-request ErrorEnvelope and never invoke the
facade.  The serverless handler violates it: on an event whose body carries
the empty query it invokes the facade — with a schema-valid answer it
returns 200, with prose it returns 500, so the response depends on the
facade and is never the claimed bad request. -/
theorem C1_counterexample :
    (lambda_handler llmOk eventEmptyQ initialMemory).1.statusCode = 200 ∧
    (lambda_handler llmProse eventEmptyQ initialMemory).1.statusCode = 500 :=
  ⟨rfl, rfl⟩

/-- C1, amended: only the HTTP endpoint guards the query.  For every
request body whose query field is missing or falsy (in particular the empty
string), query_agent answers 400 with the bad-request ErrorEnvelope, the
result is the same for every agent core (the facade is never invoked) and
the conversation memory is untouched. -/
theorem C1_amended (llm : AgentCore) (data : List (String × Json)) (m : Memory)
    (h : pyFalsyOpt (data.lookup "query") = true) :
    query_agent llm data m =
      (ApiOutcome.response 400 (Json.obj [("error", Json.str "No query provided")]), m) := by
  simp [query_agent, h]

/-- C1 witness: a request body with no query field at all. -/
theorem C1_amended_witness :
    pyFalsyOpt (([] : List (String × Json)).lookup "query") = true ∧
    query_agent llmBoom [] initialMemory =
      (ApiOutcome.response 400 (Json.obj [("error", Json.str "No query provided")]),
       initialMemory) :=
  ⟨rfl, C1_amended llmBoom [] initialMemory rfl⟩

/-- C2, counterexample: the claim says that BOTH handlers catch every
exception at the handler boundary, including one raised by the facade call
itself.  In the HTTP endpoint the agent_executor.invoke call sits outside
the try block, so a facade exception escapes the handler uncaught. -/
theorem C2_counterexample :
    (query_agent llmBoom dataQ initialMemory).1 = ApiOutcome.exn "boom" :=
  rfl

/-- C2, amended: the serverless handler catches every exception raised by
the facade and answers 500 with a non-empty body carrying an error message;
the HTTP endpoint catches only what its try block covers, and an exception
raised by the facade call itself propagates out of query_agent. -/
theorem C2_amended (e : String) (event data : List (String × Json)) (m : Memory) :
    ((lambda_handler (fun _ _ => Except.error e) event m).1.statusCode = 500 ∧
     ∃ msg, (lambda_handler (fun _ _ => Except.error e) event m).1.body =
       Json.render (Json.obj
         [("error", Json.str msg),
          ("message", Json.str "An error occurred while processing your request.")]) ∧
       (lambda_handler (fun _ _ => Except.error e) event m).1.body ≠ "") ∧
    (pyFalsyOpt (data.lookup "query") = false →
      query_agent (fun _ _ => Except.error e) data m = (ApiOutcome.exn e, m)) := by
  constructor
  · have hbody : ∀ l : List (String × Json), Json.render (Json.obj l) ≠ "" := by
      intro l hEq
      have hlen : (Json.render (Json.obj l)).length = 0 := by rw [hEq]; rfl
      rw [show Json.render (Json.obj l) =
        "\x7b" ++ Json.renderMembers l ++ "\x7d" from rfl] at hlen
      simp [String.length_append] at hlen
      exact absurd hlen.2 (by decide)
    cases hq : extractQuery event with
    | error e2 =>
      have hres : lambda_handler (fun _ _ => Except.error e) event m =
          (⟨500,
            Json.render (Json.obj
              [("error", Json.str e2),
               ("message", Json.str "An error occurred while processing your request.")]),
            [("Content-Type", "application/json")]⟩, m) := by
        simp [lambda_handler, lambdaTry, hq]
      rw [hres]
      exact ⟨rfl, e2, rfl, hbody _⟩
    | ok q =>
      have hres : lambda_handler (fun _ _ => Except.error e) event m =
          (⟨500,
            Json.render (Json.obj
              [("error", Json.str e),
               ("message", Json.str "An error occurred while processing your request.")]),
            [("Content-Type", "application/json")]⟩, m) := by
        simp [lambda_handler, lambdaTry, hq, agent_executor_invoke]
      rw [hres]
      exact ⟨rfl, e, rfl, hbody _⟩
  · intro hq
    simp [query_agent, hq, agent_executor_invoke]

/-- C2 witness: the facade raises "boom" on a well-formed request. -/
theorem C2_amended_witness :
    pyFalsyOpt (dataQ.lookup "query") = false ∧
    (lambda_handler (fun _ _ => Except.error "boom") eventQ initialMemory).1.statusCode = 500 ∧
    query_agent (fun _ _ => Except.error "boom") dataQ initialMemory =
      (ApiOutcome.exn "boom", initialMemory) :=
  ⟨rfl, (C2_amended "boom" eventQ dataQ initialMemory).1.1,
    (C2_amended "boom" eventQ dataQ initialMemory).2 rfl⟩

/-- C3, counterexample: the claim says that BOTH handlers, on agent text the
parser rejects, answer with the parse failure AND the raw text verbatim.
The serverless handler's 500 body carries only the failure message and a
generic message: the raw prose "plain prose" occurs nowhere in it. -/
theorem C3_counterexample :
    (lambda_handler llmProse eventQ initialMemory).1.statusCode = 500 ∧
    strContains (lambda_handler llmProse eventQ initialMemory).1.body "plain prose" = false :=
  ⟨rfl, rfl⟩

/-- C3, amended: on agent text the parser rejects, the HTTP endpoint
answers 500 with both the failure message and the raw text verbatim in a
separate raw field, while the serverless handler answers 500 with the
failure message and a generic message only, omitting the raw text. -/
theorem C3_amended (llm : AgentCore) (data event : List (String × Json))
    (m : Memory) (q : Json) (out e : String)
    (hq : pyFalsyOpt (data.lookup "query") = false)
    (hllm : llm ((data.lookup "query").getD Json.null) m = Except.ok out)
    (hqe : extractQuery event = Except.ok q)
    (hllm2 : llm q m = Except.ok out)
    (hparse : parse out = Except.error e) :
    query_agent llm data m =
      (ApiOutcome.response 500
        (Json.obj [("error", Json.str e), ("raw", Json.str out)]),
       m ++ [((data.lookup "query").getD Json.null, out)]) ∧
    lambda_handler llm event m =
      (⟨500,
        Json.render (Json.obj
          [("error", Json.str e),
           ("message", Json.str "An error occurred while processing your request.")]),
        [("Content-Type", "application/json")]⟩, m ++ [(q, out)]) := by
  constructor
  · simp [query_agent, hq, agent_executor_invoke, hllm, hparse]
  · simp [lambda_handler, lambdaTry, hqe, agent_executor_invoke, hllm2, hparse]

/-- C3 witness: the facade answers with prose on both handlers. -/
theorem C3_amended_witness :
    parse "plain prose" = Except.error "Invalid json output" ∧
    query_agent llmProse dataQ initialMemory =
      (ApiOutcome.response 500
        (Json.obj [("error", Json.str "Invalid json output"),
                   ("raw", Json.str "plain prose")]),
       [(Json.str "q", "plain prose")]) :=
  ⟨rfl,
    (C3_amended llmProse dataQ eventQ initialMemory (Json.str "q") "plain prose"
      "Invalid json output" rfl rfl rfl rfl rfl).1⟩

/-- C4: on a truthy query for which the facade returns text that parses as
the DataQuery schema, the HTTP endpoint answers 200 with the dict() of the
parsed object, and the serverless handler answers 200 with exactly its
json.dumps serialization: the four fields are echoed unchanged. -/
theorem C4_success (llm : AgentCore) (data event : List (String × Json))
    (m : Memory) (q : Json) (out : String) (d : DataQuery)
    (hq : pyFalsyOpt (data.lookup "query") = false)
    (hllm : llm ((data.lookup "query").getD Json.null) m = Except.ok out)
    (hqe : extractQuery event = Except.ok q)
    (hllm2 : llm q m = Except.ok out)
    (hparse : parse out = Except.ok d) :
    query_agent llm data m =
      (ApiOutcome.response 200 d.toJson,
       m ++ [((data.lookup "query").getD Json.null, out)]) ∧
    lambda_handler llm event m =
      (⟨200, Json.render d.toJson, [("Content-Type", "application/json")]⟩,
       m ++ [(q, out)]) := by
  constructor
  · simp [query_agent, hq, agent_executor_invoke, hllm, hparse]
  · simp [lambda_handler, lambdaTry, hqe, agent_executor_invoke, hllm2, hparse]

/-- C4 witness: a schema-valid answer on the request "q" in both handlers,
echoed exactly. -/
theorem C4_success_witness :
    parse validOut = Except.ok dq0 ∧
    query_agent llmOk dataQ initialMemory =
      (ApiOutcome.response 200 dq0.toJson, [(Json.str "q", validOut)]) ∧
    lambda_handler llmOk eventQ initialMemory =
      (⟨200, Json.render dq0.toJson, [("Content-Type", "application/json")]⟩,
       [(Json.str "q", validOut)]) :=
  ⟨rfl,
    (C4_success llmOk dataQ eventQ initialMemory (Json.str "q") validOut dq0
      rfl rfl rfl rfl rfl).1,
    (C4_success llmOk dataQ eventQ initialMemory (Json.str "q") validOut dq0
      rfl rfl rfl rfl rfl).2⟩

/-- C5: whenever structured parsing succeeds, the produced object has all
four fields of the schema present and correctly typed — the decoded JSON
object holds a string under summary and relevancyExplained and a list of
strings under sources and tools_used, and the object's fields equal exactly
those values; an object with a missing or mistyped field is never
produced. -/
theorem C5_no_partial_object (t : String) (d : DataQuery)
    (h : parse t = Except.ok d) :
    ∃ kvs, jsonDecode t = some (Json.obj kvs) ∧
      kvs.lookup "summary" = some (Json.str d.summary) ∧
      kvs.lookup "relevancyExplained" = some (Json.str d.relevancyExplained) ∧
      kvs.lookup "sources" = some (Json.arr (d.sources.map Json.str)) ∧
      kvs.lookup "tools_used" = some (Json.arr (d.tools_used.map Json.str)) := by
  unfold parse at h
  cases hj : jsonDecode t with
  | none => rw [hj] at h; simp at h
  | some j =>
    rw [hj] at h
    obtain ⟨kvs, hkvs, hfields⟩ := validateDataQuery_ok h
    exact ⟨kvs, by rw [hkvs], hfields⟩

/-- C5 witness: the schema-valid fixture decodes to an object carrying the
four fields of dq0. -/
theorem C5_no_partial_object_witness :
    parse validOut = Except.ok dq0 ∧
    ∃ kvs, jsonDecode validOut = some (Json.obj kvs) ∧
      kvs.lookup "summary" = some (Json.str dq0.summary) ∧
      kvs.lookup "relevancyExplained" = some (Json.str dq0.relevancyExplained) ∧
      kvs.lookup "sources" = some (Json.arr (dq0.sources.map Json.str)) ∧
      kvs.lookup "tools_used" = some (Json.arr (dq0.tools_used.map Json.str)) :=
  ⟨rfl, C5_no_partial_object validOut dq0 rfl⟩

/-- C6: parsing is deterministic and idempotent — two parses of the same
raw text that both succeed yield structurally equal DataQuery objects. -/
theorem C6_parse_deterministic (t : String) (d1 d2 : DataQuery)
    (h1 : parse t = Except.ok d1) (h2 : parse t = Except.ok d2) : d1 = d2 := by
  rw [h1] at h2
  injection h2

/-- C6 witness: both parses of the schema-valid fixture yield dq0. -/
theorem C6_parse_deterministic_witness :
    parse validOut = Except.ok dq0 ∧ dq0 = dq0 :=
  ⟨rfl, C6_parse_deterministic validOut dq0 dq0 rfl rfl⟩

/-- C7: a required credential absent from the environment makes the load of
module src/backend/main.py fail (Python KeyError) — loadConfig reports an
error, and serving any request through that load (serveLambda) reports
that same error instead of producing a response: credential absence is a
startup-time fatal condition, never a per-request error. -/
theorem C7_config_fatal (env : String → Option String) (k : String)
    (hk : k ∈ requiredEnvKeys) (hnone : env k = none) :
    ∃ msg, loadConfig env = Except.error msg ∧
      ∀ llm event m, serveLambda env llm event m = Except.error msg := by
  cases h1 : env "OPENAI_API_KEY" with
  | none =>
    exact ⟨"KeyError: OPENAI_API_KEY", by simp [loadConfig, h1],
      fun llm event m => by simp [serveLambda, loadConfig, h1]⟩
  | some v1 =>
    cases h2 : env "LANGSMITH_API_KEY" with
    | none =>
      exact ⟨"KeyError: LANGSMITH_API_KEY", by simp [loadConfig, h1, h2],
        fun llm event m => by simp [serveLambda, loadConfig, h1, h2]⟩
    | some v2 =>
      cases h3 : env "LANGSMITH_ENDPOINT" with
      | none =>
        exact ⟨"KeyError: LANGSMITH_ENDPOINT", by simp [loadConfig, h1, h2, h3],
          fun llm event m => by simp [serveLambda, loadConfig, h1, h2, h3]⟩
      | some v3 =>
        cases h4 : env "LANGSMITH_PROJECT" with
        | none =>
          exact ⟨"KeyError: LANGSMITH_PROJECT", by simp [loadConfig, h1, h2, h3, h4],
            fun llm event m => by simp [serveLambda, loadConfig, h1, h2, h3, h4]⟩
        | some v4 =>
          cases h5 : env "LANGSMITH_TRACING" with
          | none =>
            exact ⟨"KeyError: LANGSMITH_TRACING", by simp [loadConfig, h1, h2, h3, h4, h5],
              fun llm event m => by simp [serveLambda, loadConfig, h1, h2, h3, h4, h5]⟩
          | some v5 =>
            cases h6 : env "SERPAPI_API_KEY" with
            | none =>
              exact ⟨"KeyError: SERPAPI_API_KEY",
                by simp [loadConfig, h1, h2, h3, h4, h5, h6],
                fun llm event m => by simp [serveLambda, loadConfig, h1, h2, h3, h4, h5, h6]⟩
            | some v6 =>
              exfalso
              simp only [requiredEnvKeys, List.mem_cons, List.not_mem_nil, or_false] at hk
              rcases hk with rfl | rfl | rfl | rfl | rfl | rfl
              · simp [h1] at hnone
              · simp [h2] at hnone
              · simp [h3] at hnone
              · simp [h4] at hnone
              · simp [h5] at hnone
              · simp [h6] at hnone

/-- C7 witness: an empty environment is missing OPENAI_API_KEY, so startup
fails and no request is served. -/
theorem C7_config_fatal_witness :
    "OPENAI_API_KEY" ∈ requiredEnvKeys ∧
    (∃ msg, loadConfig (fun _ => none) = Except.error msg ∧
      ∀ llm event m, serveLambda (fun _ => none) llm event m = Except.error msg) :=
  ⟨by simp [requiredEnvKeys],
    C7_config_fatal (fun _ => none) "OPENAI_API_KEY" (by simp [requiredEnvKeys]) rfl⟩

/-- C8, counterexample: the claim says conversation history is empty on
every serverless invocation and nothing written by one invocation is
observable later.  The buffer memory of src/backend/main.py line 21 is
module state shared by the agent executor: a first successful invocation
leaves a non-empty memory, and a second invocation of lambda_handler on the
very same event — run with an agent core that answers by the threaded
history — observes it and answers differently (500 instead of 200). -/
theorem C8_counterexample :
    (lambda_handler llmProbe eventQ initialMemory).1.statusCode = 200 ∧
    (lambda_handler llmProbe eventQ initialMemory).2.isEmpty = false ∧
    (lambda_handler llmProbe eventQ
      (lambda_handler llmProbe eventQ initialMemory).2).1.statusCode = 500 :=
  ⟨rfl, rfl, rfl⟩

/-- C8, amended: the conversation memory is process-level state threaded
through the agent executor: it is empty only at process start, and each
invocation of lambda_handler whose facade call completes appends its
(query, output) turn to the memory it was given, observable by later
invocations in the same process. -/
theorem C8_amended (llm : AgentCore) (event : List (String × Json))
    (m : Memory) (q : Json) (out : String)
    (hqe : extractQuery event = Except.ok q)
    (hllm : llm q m = Except.ok out) :
    (lambda_handler llm event m).2 = m ++ [(q, out)] := by
  unfold lambda_handler lambdaTry
  rw [hqe]
  simp only [agent_executor_invoke, hllm]
  cases parse out <;> simp

/-- C8 witness: one successful invocation starting from the fresh process
memory records its turn. -/
theorem C8_amended_witness :
    extractQuery eventQ = Except.ok (Json.str "q") ∧
    (lambda_handler llmOk eventQ initialMemory).2 =
      initialMemory ++ [(Json.str "q", validOut)] :=
  ⟨rfl, C8_amended llmOk eventQ initialMemory (Json.str "q") validOut rfl rfl⟩

/-- C9: on any event whose body is a string that does not decode as JSON,
or is neither a string nor a dict, lambda_handler substitutes an empty body
and defaults the query to the empty string: handling the event is the same
as handling a well-formed event carrying the empty query — the agent facade
is invoked with the empty query — and the response is never a 400 bad
request. -/
theorem C9_bad_body_defaults (event : List (String × Json))
    (h : bodyDefaulted (event.lookup "body") = true) :
    extractQuery event = Except.ok (Json.str "") ∧
    ∀ llm m, lambda_handler llm event m = lambda_handler llm eventEmptyQ m ∧
      (lambda_handler llm event m).1.statusCode ≠ 400 := by
  have hq : extractQuery event = Except.ok (Json.str "") := by
    have hpb : parseBody event = Json.obj [] := by
      unfold parseBody
      cases hb : event.lookup "body" with
      | none => rfl
      | some j =>
        cases j with
        | str s =>
          rw [hb] at h
          simp only [bodyDefaulted, Option.isNone_iff_eq_none] at h
          simp [h]
        | obj kvs => rw [hb] at h; simp [bodyDefaulted] at h
        | null => rfl
        | bool b => rfl
        | num i => rfl
        | arr l => rfl
    unfold extractQuery
    rw [hpb]
    rfl
  refine ⟨hq, fun llm m => ⟨lambda_handler_ext (by rw [hq]; rfl) llm m, ?_⟩⟩
  rcases lambda_handler_shape llm event m with ⟨j, m', hres⟩ | ⟨e, m', hres⟩
  · rw [hres]
    exact (by decide : (200 : Nat) ≠ 400)
  · rw [hres]
    exact (by decide : (500 : Nat) ≠ 400)

/-- C9 witness: a body that is not valid JSON defaults to the empty query
and yields a non-400 response. -/
theorem C9_bad_body_defaults_witness :
    bodyDefaulted ((([("body", Json.str "not json")] : List (String × Json)).lookup "body")) = true ∧
    extractQuery [("body", Json.str "not json")] = Except.ok (Json.str "") ∧
    lambda_handler llmOk [("body", Json.str "not json")] initialMemory =
      lambda_handler llmOk eventEmptyQ initialMemory ∧
    (lambda_handler llmOk [("body", Json.str "not json")] initialMemory).1.statusCode ≠ 400 :=
  ⟨rfl, (C9_bad_body_defaults [("body", Json.str "not json")] rfl).1,
    ((C9_bad_body_defaults [("body", Json.str "not json")] rfl).2 llmOk initialMemory).1,
    ((C9_bad_body_defaults [("body", Json.str "not json")] rfl).2 llmOk initialMemory).2⟩

/-- C10: whatever the event, the agent core and the memory, the value
lambda_handler returns is an envelope whose statusCode is 200 or 500, whose
body is the json.dumps serialization of some JSON value, and whose headers
carry Content-Type application/json — on the success and the error path
alike. -/
theorem C10_envelope_shape (llm : AgentCore) (event : List (String × Json))
    (m : Memory) :
    ((lambda_handler llm event m).1.statusCode = 200 ∨
      (lambda_handler llm event m).1.statusCode = 500) ∧
    (∃ j, (lambda_handler llm event m).1.body = Json.render j) ∧
    (lambda_handler llm event m).1.headers = [("Content-Type", "application/json")] := by
  rcases lambda_handler_shape llm event m with ⟨j, m', hres⟩ | ⟨e, m', hres⟩
  · rw [hres]
    exact ⟨Or.inl rfl, ⟨j, rfl⟩, rfl⟩
  · rw [hres]
    exact ⟨Or.inr rfl, ⟨_, rfl⟩, rfl⟩

end DASH
